import Mathlib

/-!
Verification of the model-runner repository's platform probes.

Part 1 models the VRAM prober, realised twice in the source:
  * `src/pkg/gpuinfo/nvapi.c`  — Windows variant (`getVRAMSize` over NvAPI),
  * `src/pkg/gpuinfo/nvidia.c` — Linux variant (`getVRAMSize` over NVML).
Each variant is embedded as a pure function from an environment (the
outcome of every external call: library loads, symbol lookups, vendor-API
statuses and the values the vendor writes) to the returned byte count
together with the trace of externally visible events performed by the
function, in order.  The C functions have no static state and touch the
outside world only through those calls, so the environment determines a
run completely.

Part 2 models the log forwarder `apple_asl_logger_log` of
`src/cmd/cli/vendor/github.com/docker/pinata/common/pkg/logger/asl_darwin.c`
as a function from the message (its byte sequence, modelled as a list of
characters) to the list of strings handed to `asl_log`, in order.
-/

namespace GpuInfo

/-- An externally visible event performed by `getVRAMSize` (either
variant): a library-load attempt with its outcome (`LoadLibraryA` /
`dlopen`), a symbol lookup against the loaded library with its outcome
(`GetProcAddress` / `dlsym`), each call through a resolved vendor
function pointer, and the library release (`FreeLibrary` / `dlclose`).
`callGetMemoryInfo` records the version tag stored into the memory-info
record before the call (`some v` for the Windows variant, `none` for the
Linux variant, whose record has no version field). -/
inductive NvEvent where
  | load (name : String) (ok : Bool)
  | getProc (lib sym : String) (ok : Bool)
  | callInit
  | callEnum
  | callGetHandleByIndex (idx : Nat)
  | callGetMemoryInfo (version : Option Nat)
  | callShutdown
  | unload (lib : String)
deriving DecidableEq

/-- The event is a successful library load. -/
def isLoadOk : NvEvent → Bool
  | .load _ true => true
  | _ => false

/-- The event is a library release (`FreeLibrary` / `dlclose`). -/
def isUnload : NvEvent → Bool
  | .unload _ => true
  | _ => false

/-- The event is a vendor-API shutdown call (`NvAPI_Unload` /
`nvmlShutdown`). -/
def isShutdown : NvEvent → Bool
  | .callShutdown => true
  | _ => false

/-- The event is a call through a resolved vendor function pointer. -/
def isVendorCall : NvEvent → Bool
  | .callInit => true
  | .callEnum => true
  | .callGetHandleByIndex _ => true
  | .callGetMemoryInfo _ => true
  | .callShutdown => true
  | _ => false

/-- Number of events of a trace satisfying `p`. -/
def count (p : NvEvent → Bool) (tr : List NvEvent) : Nat :=
  (tr.filter p).length

/-- The part of the trace strictly before the first library release. -/
def beforeFirstUnload (tr : List NvEvent) : List NvEvent :=
  tr.takeWhile (fun e => !isUnload e)

end GpuInfo

namespace Nvapi

open GpuInfo

/-- Environment of one run of the Windows variant: the outcome of each
`LoadLibraryA` by name, of each `GetProcAddress` by library and symbol
name, the statuses the vendor API returns, and the values it writes
(`count` out of `NvAPI_EnumPhysicalGPUs`, `dedicatedVideoMemory` out of
`NvAPI_GPU_GetMemoryInfo`; both are `NvU32`, so they are reduced mod
`2 ^ 32` where used). -/
structure Env where
  loads : String → Bool
  resolves : String → String → Bool
  initStatus : Int
  enumStatus : Int
  enumCount : Nat
  memStatus : Int
  dedicatedVideoMemory : Nat

/-- `NVAPI_OK = 0` (`nvapi.c`, line 6). -/
def NVAPI_OK : Int := 0

/-- `NV_DISPLAY_DRIVER_MEMORY_INFO_VER = 0x10028` (`nvapi.c`, line 20). -/
def NV_DISPLAY_DRIVER_MEMORY_INFO_VER : Nat := 0x10028

/-- The four `GetProcAddress` lookups of `nvapi.c`, lines 44-47, against
the loaded library `lib`, in source order. -/
def symEvents (env : Env) (lib : String) : List NvEvent :=
  [.getProc lib "NvAPI_Initialize" (env.resolves lib "NvAPI_Initialize"),
   .getProc lib "NvAPI_EnumPhysicalGPUs" (env.resolves lib "NvAPI_EnumPhysicalGPUs"),
   .getProc lib "NvAPI_GPU_GetMemoryInfo" (env.resolves lib "NvAPI_GPU_GetMemoryInfo"),
   .getProc lib "NvAPI_Unload" (env.resolves lib "NvAPI_Unload")]

/-- Body of `getVRAMSize` of `nvapi.c` after a handle to `lib` has been
obtained: lines 43-79.  Resolve the four symbols; if any is null, free
the library and return 0.  Call `NvAPI_Initialize`; on non-`NVAPI_OK`,
free and return 0.  Call `NvAPI_EnumPhysicalGPUs`; on non-`NVAPI_OK`
status or a zero device count, call `NvAPI_Unload`, free, return 0.  Set
`memInfo.version` to `NV_DISPLAY_DRIVER_MEMORY_INFO_VER` and call
`NvAPI_GPU_GetMemoryInfo`; on non-`NVAPI_OK`, call `NvAPI_Unload`, free,
return 0.  Otherwise call `NvAPI_Unload`, free, and return
`dedicatedVideoMemory` (an `NvU32`, in kilobytes) cast to `size_t` and
multiplied by 1024. -/
def withHandle (env : Env) (lib : String) : Nat × List NvEvent :=
  if !(env.resolves lib "NvAPI_Initialize") || !(env.resolves lib "NvAPI_EnumPhysicalGPUs")
      || !(env.resolves lib "NvAPI_GPU_GetMemoryInfo") || !(env.resolves lib "NvAPI_Unload") then
    (0, symEvents env lib ++ [.unload lib])
  else if env.initStatus ≠ NVAPI_OK then
    (0, symEvents env lib ++ [.callInit, .unload lib])
  else if env.enumStatus ≠ NVAPI_OK ∨ env.enumCount % 2 ^ 32 = 0 then
    (0, symEvents env lib ++ [.callInit, .callEnum, .callShutdown, .unload lib])
  else if env.memStatus ≠ NVAPI_OK then
    (0, symEvents env lib ++
      [.callInit, .callEnum, .callGetMemoryInfo (some NV_DISPLAY_DRIVER_MEMORY_INFO_VER),
       .callShutdown, .unload lib])
  else
    (env.dedicatedVideoMemory % 2 ^ 32 * 1024,
     symEvents env lib ++
      [.callInit, .callEnum, .callGetMemoryInfo (some NV_DISPLAY_DRIVER_MEMORY_INFO_VER),
       .callShutdown, .unload lib])

/-- `getVRAMSize` of `nvapi.c`, lines 22-80: try `LoadLibraryA` on
`"nvapi64.dll"`, fall back to `"nvapi.dll"`; if both fail return 0 with
no further event; otherwise continue with `withHandle` on the library
that opened.  Returns the value returned by the C function paired with
the trace of its external events. -/
def getVRAMSize (env : Env) : Nat × List NvEvent :=
  if env.loads "nvapi64.dll" then
    ((withHandle env "nvapi64.dll").1,
     .load "nvapi64.dll" true :: (withHandle env "nvapi64.dll").2)
  else if env.loads "nvapi.dll" then
    ((withHandle env "nvapi.dll").1,
     .load "nvapi64.dll" false :: .load "nvapi.dll" true :: (withHandle env "nvapi.dll").2)
  else
    (0, [.load "nvapi64.dll" false, .load "nvapi.dll" false])

/-- The library name `getVRAMSize` ends up holding a handle to, if any:
`nvapi.c`, lines 35-41. -/
def usedLib (env : Env) : Option String :=
  if env.loads "nvapi64.dll" then some "nvapi64.dll"
  else if env.loads "nvapi.dll" then some "nvapi.dll"
  else none

/-- All four required symbols resolve (non-null) against `lib`:
the condition of `nvapi.c`, line 49, negated. -/
def allSymbolsResolve (env : Env) (lib : String) : Prop :=
  env.resolves lib "NvAPI_Initialize" = true ∧
  env.resolves lib "NvAPI_EnumPhysicalGPUs" = true ∧
  env.resolves lib "NvAPI_GPU_GetMemoryInfo" = true ∧
  env.resolves lib "NvAPI_Unload" = true

instance (env : Env) (lib : String) : Decidable (allSymbolsResolve env lib) := by
  unfold allSymbolsResolve; infer_instance

/-- Every step of the run succeeded: some library opened, all symbols
resolved against it, init, enumeration and the memory query returned
`NVAPI_OK`, and at least one device was reported. -/
def fullSuccess (env : Env) : Prop :=
  match usedLib env with
  | none => False
  | some lib =>
      allSymbolsResolve env lib ∧ env.initStatus = NVAPI_OK ∧
      env.enumStatus = NVAPI_OK ∧ env.enumCount % 2 ^ 32 ≠ 0 ∧
      env.memStatus = NVAPI_OK

/-- Two sequential calls of `getVRAMSize` in one unchanged environment:
the C function keeps no state between calls (no statics, every resource
acquired in a call is released in it), so each call is the same pure
function of the environment. -/
def callTwice (env : Env) : (Nat × List NvEvent) × (Nat × List NvEvent) :=
  (getVRAMSize env, getVRAMSize env)

end Nvapi

namespace Nvidia

open GpuInfo

/-- Environment of one run of the Linux variant: the outcome of each
`dlopen` by name, of each `dlsym` by library and symbol name, the
statuses the NVML calls return, and the `total` field (an
`unsigned long long`, reduced mod `2 ^ 64` where used) the vendor writes
into the `nvmlMemory_t` record. -/
structure Env where
  loads : String → Bool
  resolves : String → String → Bool
  initStatus : Int
  getHandleStatus : Int
  memStatus : Int
  memTotal : Nat

/-- `NVML_SUCCESS = 0` (`nvidia.c`, line 6). -/
def NVML_SUCCESS : Int := 0

/-- The four `dlsym` lookups of `nvidia.c`, lines 38-41, against the
loaded library `lib`, in source order. -/
def symEvents (env : Env) (lib : String) : List NvEvent :=
  [.getProc lib "nvmlInit" (env.resolves lib "nvmlInit"),
   .getProc lib "nvmlShutdown" (env.resolves lib "nvmlShutdown"),
   .getProc lib "nvmlDeviceGetHandleByIndex" (env.resolves lib "nvmlDeviceGetHandleByIndex"),
   .getProc lib "nvmlDeviceGetMemoryInfo" (env.resolves lib "nvmlDeviceGetMemoryInfo")]

/-- Body of `getVRAMSize` of `nvidia.c` after a handle to `lib` has been
obtained: lines 37-70.  Resolve the four symbols; if any is null,
`dlclose` and return 0.  Call `nvmlInit`; on non-`NVML_SUCCESS`,
`dlclose` and return 0.  Call `nvmlDeviceGetHandleByIndex(0, ...)`; on
failure call `nvmlShutdown`, `dlclose`, return 0.  Call
`nvmlDeviceGetMemoryInfo` (the `nvmlMemory_t` record has no version
field); on failure call `nvmlShutdown`, `dlclose`, return 0.  Otherwise
call `nvmlShutdown`, `dlclose`, and return `memory.total` (bytes). -/
def withHandle (env : Env) (lib : String) : Nat × List NvEvent :=
  if !(env.resolves lib "nvmlInit") || !(env.resolves lib "nvmlShutdown")
      || !(env.resolves lib "nvmlDeviceGetHandleByIndex")
      || !(env.resolves lib "nvmlDeviceGetMemoryInfo") then
    (0, symEvents env lib ++ [.unload lib])
  else if env.initStatus ≠ NVML_SUCCESS then
    (0, symEvents env lib ++ [.callInit, .unload lib])
  else if env.getHandleStatus ≠ NVML_SUCCESS then
    (0, symEvents env lib ++ [.callInit, .callGetHandleByIndex 0, .callShutdown, .unload lib])
  else if env.memStatus ≠ NVML_SUCCESS then
    (0, symEvents env lib ++
      [.callInit, .callGetHandleByIndex 0, .callGetMemoryInfo none, .callShutdown, .unload lib])
  else
    (env.memTotal % 2 ^ 64,
     symEvents env lib ++
      [.callInit, .callGetHandleByIndex 0, .callGetMemoryInfo none, .callShutdown, .unload lib])

/-- `getVRAMSize` of `nvidia.c`, lines 17-71: try `dlopen` on
`"libnvidia-ml.so.1"`, fall back to `"libnvidia-ml.so"`; if both fail
return 0 with no further event; otherwise continue with `withHandle` on
the library that opened. -/
def getVRAMSize (env : Env) : Nat × List NvEvent :=
  if env.loads "libnvidia-ml.so.1" then
    ((withHandle env "libnvidia-ml.so.1").1,
     .load "libnvidia-ml.so.1" true :: (withHandle env "libnvidia-ml.so.1").2)
  else if env.loads "libnvidia-ml.so" then
    ((withHandle env "libnvidia-ml.so").1,
     .load "libnvidia-ml.so.1" false :: .load "libnvidia-ml.so" true ::
       (withHandle env "libnvidia-ml.so").2)
  else
    (0, [.load "libnvidia-ml.so.1" false, .load "libnvidia-ml.so" false])

/-- The library name `getVRAMSize` ends up holding a handle to, if any:
`nvidia.c`, lines 29-35. -/
def usedLib (env : Env) : Option String :=
  if env.loads "libnvidia-ml.so.1" then some "libnvidia-ml.so.1"
  else if env.loads "libnvidia-ml.so" then some "libnvidia-ml.so"
  else none

/-- All four required symbols resolve (non-null) against `lib`:
the condition of `nvidia.c`, line 43, negated. -/
def allSymbolsResolve (env : Env) (lib : String) : Prop :=
  env.resolves lib "nvmlInit" = true ∧
  env.resolves lib "nvmlShutdown" = true ∧
  env.resolves lib "nvmlDeviceGetHandleByIndex" = true ∧
  env.resolves lib "nvmlDeviceGetMemoryInfo" = true

instance (env : Env) (lib : String) : Decidable (allSymbolsResolve env lib) := by
  unfold allSymbolsResolve; infer_instance

/-- Every step of the run succeeded: some library opened, all symbols
resolved against it, and init, get-handle-by-index and the memory query
all returned `NVML_SUCCESS`. -/
def fullSuccess (env : Env) : Prop :=
  match usedLib env with
  | none => False
  | some lib =>
      allSymbolsResolve env lib ∧ env.initStatus = NVML_SUCCESS ∧
      env.getHandleStatus = NVML_SUCCESS ∧ env.memStatus = NVML_SUCCESS

/-- Two sequential calls of `getVRAMSize` in one unchanged environment;
the C function keeps no state between calls. -/
def callTwice (env : Env) : (Nat × List NvEvent) × (Nat × List NvEvent) :=
  (getVRAMSize env, getVRAMSize env)

end Nvidia

namespace AslDarwin

/-- The continuation prefix `"[...] "` placed before every segment other
than the first (`asl_darwin.c`, line 32). -/
def contMarker : List Char := ['[', '.', '.', '.', ']', ' ']

/-- The suffix `" [...]"` placed after every segment that is not the
last (`asl_darwin.c`, line 34). -/
def nonFinalMarker : List Char := [' ', '[', '.', '.', '.', ']']

/-- The loop of `apple_asl_logger_log` (`asl_darwin.c`, lines 29-35):
`for (pos = 0; pos < len; pos += 1000)` emits one `asl_log` call per
iteration, formatted `"%s%.*s%s"` with the continuation prefix when
`pos` is nonzero, at most 1000 bytes of the message starting at `pos`,
and the non-final suffix when `pos + 1000 < len`. -/
def splitSegs (message : List Char) (pos : Nat) : List (List Char) :=
  if h : pos < message.length then
    ((if pos = 0 then [] else contMarker) ++
      (message.drop pos).take 1000 ++
      (if pos + 1000 < message.length then nonFinalMarker else []))
      :: splitSegs message (pos + 1000)
  else []
termination_by message.length - pos
decreasing_by simp_wf; omega

/-- `apple_asl_logger_log` of `asl_darwin.c`, lines 16-37, restricted to
its observable logging behaviour: the list of strings handed to
`asl_log`, in order.  A message shorter than 1024 bytes is logged
verbatim in a single call; otherwise the splitting loop runs. -/
def apple_asl_logger_log (message : List Char) : List (List Char) :=
  if message.length < 1024 then [message]
  else splitSegs message 0

/-- The segment emitted for loop index `i` (position `1000 * i`). -/
def segment (message : List Char) (i : Nat) : List Char :=
  (if i = 0 then [] else contMarker) ++
    (message.drop (1000 * i)).take 1000 ++
    (if 1000 * i + 1000 < message.length then nonFinalMarker else [])

end AslDarwin

/-! Concrete environments used to exercise the theorems below on closed
inputs. -/

/-- Windows environment in which every step succeeds: both library
names open, every symbol resolves, every status is `NVAPI_OK`, one
device, `dedicatedVideoMemory = 8388608` KB. -/
def nvapiEnvOk : Nvapi.Env :=
  { loads := fun _ => true, resolves := fun _ _ => true, initStatus := 0,
    enumStatus := 0, enumCount := 1, memStatus := 0, dedicatedVideoMemory := 8388608 }

/-- Windows environment in which neither library name opens. -/
def nvapiEnvNoLib : Nvapi.Env :=
  { loads := fun _ => false, resolves := fun _ _ => true, initStatus := 0,
    enumStatus := 0, enumCount := 1, memStatus := 0, dedicatedVideoMemory := 8388608 }

/-- Windows environment in which only the generic name `nvapi.dll`
opens. -/
def nvapiEnvFallback : Nvapi.Env :=
  { loads := fun n => n == "nvapi.dll", resolves := fun _ _ => true, initStatus := 0,
    enumStatus := 0, enumCount := 1, memStatus := 0, dedicatedVideoMemory := 8388608 }

/-- Windows environment in which no symbol resolves. -/
def nvapiEnvNoSyms : Nvapi.Env :=
  { loads := fun _ => true, resolves := fun _ _ => false, initStatus := 0,
    enumStatus := 0, enumCount := 1, memStatus := 0, dedicatedVideoMemory := 8388608 }

/-- Windows environment in which `NvAPI_Initialize` fails. -/
def nvapiEnvInitFail : Nvapi.Env :=
  { loads := fun _ => true, resolves := fun _ _ => true, initStatus := -2,
    enumStatus := 0, enumCount := 1, memStatus := 0, dedicatedVideoMemory := 8388608 }

/-- Windows environment in which `NvAPI_GPU_GetMemoryInfo` fails. -/
def nvapiEnvMemFail : Nvapi.Env :=
  { loads := fun _ => true, resolves := fun _ _ => true, initStatus := 0,
    enumStatus := 0, enumCount := 1, memStatus := -2, dedicatedVideoMemory := 8388608 }

/-- Linux environment in which every step succeeds, with
`memory.total = 8589934592` bytes. -/
def nvmlEnvOk : Nvidia.Env :=
  { loads := fun _ => true, resolves := fun _ _ => true, initStatus := 0,
    getHandleStatus := 0, memStatus := 0, memTotal := 8589934592 }

/-- Linux environment in which neither library name opens. -/
def nvmlEnvNoLib : Nvidia.Env :=
  { loads := fun _ => false, resolves := fun _ _ => true, initStatus := 0,
    getHandleStatus := 0, memStatus := 0, memTotal := 8589934592 }

/-- Linux environment in which only the generic name `libnvidia-ml.so`
opens. -/
def nvmlEnvFallback : Nvidia.Env :=
  { loads := fun n => n == "libnvidia-ml.so", resolves := fun _ _ => true, initStatus := 0,
    getHandleStatus := 0, memStatus := 0, memTotal := 8589934592 }

/-- Linux environment in which no symbol resolves. -/
def nvmlEnvNoSyms : Nvidia.Env :=
  { loads := fun _ => true, resolves := fun _ _ => false, initStatus := 0,
    getHandleStatus := 0, memStatus := 0, memTotal := 8589934592 }

/-- Linux environment in which `nvmlInit` fails. -/
def nvmlEnvInitFail : Nvidia.Env :=
  { loads := fun _ => true, resolves := fun _ _ => true, initStatus := 1,
    getHandleStatus := 0, memStatus := 0, memTotal := 8589934592 }

/-- Linux environment in which `nvmlDeviceGetMemoryInfo` fails. -/
def nvmlEnvMemFail : Nvidia.Env :=
  { loads := fun _ => true, resolves := fun _ _ => true, initStatus := 0,
    getHandleStatus := 0, memStatus := 1, memTotal := 8589934592 }

/-! Helper lemmas about the Windows variant.  Each is a case analysis
over the branch structure of `Nvapi.getVRAMSize`. -/

open GpuInfo

/-- In every run of the Windows variant, successful loads and library
releases balance. -/
theorem Nvapi.count_loadOk_eq_count_unload (env : Nvapi.Env) :
    count isLoadOk (Nvapi.getVRAMSize env).2 = count isUnload (Nvapi.getVRAMSize env).2 := by
  unfold Nvapi.getVRAMSize Nvapi.withHandle
  split_ifs <;> simp [count, Nvapi.symEvents, isLoadOk, isUnload, List.filter]

/-- Whenever a library was opened, the Windows variant releases it
exactly once. -/
theorem Nvapi.unload_one_of_used (env : Nvapi.Env) (lib : String)
    (h : Nvapi.usedLib env = some lib) :
    count isUnload (Nvapi.getVRAMSize env).2 = 1 := by
  unfold Nvapi.usedLib at h
  unfold Nvapi.getVRAMSize Nvapi.withHandle
  split_ifs at h ⊢ <;> simp_all [count, Nvapi.symEvents, isUnload, List.filter]

/-- If no step of the Windows variant failed short of full success, it
cannot return a nonzero value; contrapositively, every failure path
returns `0`. -/
theorem Nvapi.ret_zero_of_not_fullSuccess (env : Nvapi.Env) (h : ¬ Nvapi.fullSuccess env) :
    (Nvapi.getVRAMSize env).1 = 0 := by
  unfold Nvapi.fullSuccess Nvapi.usedLib at h
  unfold Nvapi.getVRAMSize Nvapi.withHandle
  split_ifs at h ⊢ <;>
    simp_all [Nvapi.allSymbolsResolve, Nvapi.NVAPI_OK]

/-- When the Windows variant has a handle and `NvAPI_Initialize`
returned `NVAPI_OK`, `NvAPI_Unload` is called exactly once, and it
happens before the library release. -/
theorem Nvapi.shutdown_of_init_ok (env : Nvapi.Env) (lib : String)
    (h : Nvapi.usedLib env = some lib) (hs : Nvapi.allSymbolsResolve env lib)
    (hi : env.initStatus = Nvapi.NVAPI_OK) :
    count isShutdown (beforeFirstUnload (Nvapi.getVRAMSize env).2) = 1 ∧
    count isShutdown (Nvapi.getVRAMSize env).2 = 1 := by
  unfold Nvapi.usedLib at h
  unfold Nvapi.allSymbolsResolve at hs
  unfold Nvapi.getVRAMSize Nvapi.withHandle beforeFirstUnload
  split_ifs at h ⊢ <;>
    simp_all [count, Nvapi.symEvents, isShutdown, isUnload, List.filter, List.takeWhile]

/-- When the Windows variant has a handle and all symbols resolved but
`NvAPI_Initialize` failed, it returns `0`, releases the library exactly
once, and never calls `NvAPI_Unload`. -/
theorem Nvapi.init_fail_spec (env : Nvapi.Env) (lib : String)
    (h : Nvapi.usedLib env = some lib) (hs : Nvapi.allSymbolsResolve env lib)
    (hi : env.initStatus ≠ Nvapi.NVAPI_OK) :
    (Nvapi.getVRAMSize env).1 = 0 ∧
    count isUnload (Nvapi.getVRAMSize env).2 = 1 ∧
    count isShutdown (Nvapi.getVRAMSize env).2 = 0 := by
  unfold Nvapi.usedLib at h
  unfold Nvapi.allSymbolsResolve at hs
  unfold Nvapi.getVRAMSize Nvapi.withHandle
  split_ifs at h ⊢ <;>
    simp_all [count, Nvapi.symEvents, isShutdown, isUnload, List.filter]

/-- When the Windows variant has a handle but some required symbol is
null, it returns `0`, releases the library exactly once, and calls no
vendor function. -/
theorem Nvapi.syms_fail_spec (env : Nvapi.Env) (lib : String)
    (h : Nvapi.usedLib env = some lib) (hs : ¬ Nvapi.allSymbolsResolve env lib) :
    (Nvapi.getVRAMSize env).1 = 0 ∧
    count isUnload (Nvapi.getVRAMSize env).2 = 1 ∧
    count isVendorCall (Nvapi.getVRAMSize env).2 = 0 := by
  unfold Nvapi.usedLib at h
  unfold Nvapi.allSymbolsResolve at hs
  unfold Nvapi.getVRAMSize Nvapi.withHandle
  split_ifs at h ⊢ <;>
    simp_all [count, Nvapi.symEvents, isVendorCall, isUnload, List.filter]

/-- If the Windows variant called any vendor function pointer, a library
had been opened and all four required symbols had resolved against it. -/
theorem Nvapi.allResolve_of_vendorCall (env : Nvapi.Env)
    (h : 0 < count isVendorCall (Nvapi.getVRAMSize env).2) :
    ∃ lib, Nvapi.usedLib env = some lib ∧ Nvapi.allSymbolsResolve env lib := by
  unfold Nvapi.getVRAMSize Nvapi.withHandle at h
  unfold Nvapi.usedLib Nvapi.allSymbolsResolve
  split_ifs at h ⊢ <;>
    simp_all [count, Nvapi.symEvents, isVendorCall, List.filter]

/-- If the primary name `nvapi64.dll` fails to open but `nvapi.dll`
opens, the Windows variant records both attempts and then runs its body
against the `nvapi.dll` handle. -/
theorem Nvapi.fallback_eq (env : Nvapi.Env)
    (h1 : env.loads "nvapi64.dll" = false) (h2 : env.loads "nvapi.dll" = true) :
    Nvapi.getVRAMSize env =
      ((Nvapi.withHandle env "nvapi.dll").1,
       .load "nvapi64.dll" false :: .load "nvapi.dll" true ::
         (Nvapi.withHandle env "nvapi.dll").2) := by
  unfold Nvapi.getVRAMSize
  simp [h1, h2]

/-- If neither library name opens, the Windows variant returns `0`
having performed only the two failed load attempts. -/
theorem Nvapi.both_fail_eq (env : Nvapi.Env)
    (h1 : env.loads "nvapi64.dll" = false) (h2 : env.loads "nvapi.dll" = false) :
    Nvapi.getVRAMSize env = (0, [.load "nvapi64.dll" false, .load "nvapi.dll" false]) := by
  unfold Nvapi.getVRAMSize
  simp [h1, h2]

/-- On full success the Windows variant returns the `NvU32` value of
`dedicatedVideoMemory` (kilobytes) times 1024, calls `NvAPI_Unload`
once and releases the library once. -/
theorem Nvapi.success_spec (env : Nvapi.Env) (lib : String)
    (h : Nvapi.usedLib env = some lib) (hs : Nvapi.allSymbolsResolve env lib)
    (hi : env.initStatus = Nvapi.NVAPI_OK) (he : env.enumStatus = Nvapi.NVAPI_OK)
    (hc : env.enumCount % 2 ^ 32 ≠ 0) (hm : env.memStatus = Nvapi.NVAPI_OK) :
    (Nvapi.getVRAMSize env).1 = env.dedicatedVideoMemory % 2 ^ 32 * 1024 ∧
    count isShutdown (Nvapi.getVRAMSize env).2 = 1 ∧
    count isUnload (Nvapi.getVRAMSize env).2 = 1 := by
  unfold Nvapi.usedLib at h
  unfold Nvapi.allSymbolsResolve at hs
  unfold Nvapi.getVRAMSize Nvapi.withHandle
  split_ifs at h ⊢ <;>
    simp_all [count, Nvapi.symEvents, isShutdown, isUnload, List.filter]

/-- When the Windows variant reaches the memory query and
`NvAPI_GPU_GetMemoryInfo` fails, it returns `0` after calling
`NvAPI_Unload` once and releasing the library once. -/
theorem Nvapi.mem_fail_spec (env : Nvapi.Env) (lib : String)
    (h : Nvapi.usedLib env = some lib) (hs : Nvapi.allSymbolsResolve env lib)
    (hi : env.initStatus = Nvapi.NVAPI_OK) (he : env.enumStatus = Nvapi.NVAPI_OK)
    (hc : env.enumCount % 2 ^ 32 ≠ 0) (hm : env.memStatus ≠ Nvapi.NVAPI_OK) :
    (Nvapi.getVRAMSize env).1 = 0 ∧
    count isShutdown (Nvapi.getVRAMSize env).2 = 1 ∧
    count isUnload (Nvapi.getVRAMSize env).2 = 1 := by
  unfold Nvapi.usedLib at h
  unfold Nvapi.allSymbolsResolve at hs
  unfold Nvapi.getVRAMSize Nvapi.withHandle
  split_ifs at h ⊢ <;>
    simp_all [count, Nvapi.symEvents, isShutdown, isUnload, List.filter]

/-- Every memory-info query the Windows variant performs carries the
version tag `NV_DISPLAY_DRIVER_MEMORY_INFO_VER`. -/
theorem Nvapi.memInfo_version (env : Nvapi.Env) (v : Option Nat)
    (h : NvEvent.callGetMemoryInfo v ∈ (Nvapi.getVRAMSize env).2) :
    v = some Nvapi.NV_DISPLAY_DRIVER_MEMORY_INFO_VER := by
  unfold Nvapi.getVRAMSize Nvapi.withHandle at h
  split_ifs at h <;> simp_all [Nvapi.symEvents]

/-! Helper lemmas about the Linux variant, mirroring the Windows ones. -/

/-- In every run of the Linux variant, successful loads and library
releases balance. -/
theorem Nvidia.loadOk_eq_unload_nvml (env : Nvidia.Env) :
    count isLoadOk (Nvidia.getVRAMSize env).2 = count isUnload (Nvidia.getVRAMSize env).2 := by
  unfold Nvidia.getVRAMSize Nvidia.withHandle
  split_ifs <;> simp [count, Nvidia.symEvents, isLoadOk, isUnload, List.filter]

/-- Whenever a library was opened, the Linux variant releases it exactly
once. -/
theorem Nvidia.unload_one_of_used_nvml (env : Nvidia.Env) (lib : String)
    (h : Nvidia.usedLib env = some lib) :
    count isUnload (Nvidia.getVRAMSize env).2 = 1 := by
  unfold Nvidia.usedLib at h
  unfold Nvidia.getVRAMSize Nvidia.withHandle
  split_ifs at h ⊢ <;> simp_all [count, Nvidia.symEvents, isUnload, List.filter]

/-- Every failure path of the Linux variant returns `0`. -/
theorem Nvidia.ret_zero_of_not_fullSuccess_nvml (env : Nvidia.Env) (h : ¬ Nvidia.fullSuccess env) :
    (Nvidia.getVRAMSize env).1 = 0 := by
  unfold Nvidia.fullSuccess Nvidia.usedLib at h
  unfold Nvidia.getVRAMSize Nvidia.withHandle
  split_ifs at h ⊢ <;>
    simp_all [Nvidia.allSymbolsResolve, Nvidia.NVML_SUCCESS]

/-- When the Linux variant has a handle and `nvmlInit` returned
`NVML_SUCCESS`, `nvmlShutdown` is called exactly once, before the
library release. -/
theorem Nvidia.shutdown_of_init_ok_nvml (env : Nvidia.Env) (lib : String)
    (h : Nvidia.usedLib env = some lib) (hs : Nvidia.allSymbolsResolve env lib)
    (hi : env.initStatus = Nvidia.NVML_SUCCESS) :
    count isShutdown (beforeFirstUnload (Nvidia.getVRAMSize env).2) = 1 ∧
    count isShutdown (Nvidia.getVRAMSize env).2 = 1 := by
  unfold Nvidia.usedLib at h
  unfold Nvidia.allSymbolsResolve at hs
  unfold Nvidia.getVRAMSize Nvidia.withHandle beforeFirstUnload
  split_ifs at h ⊢ <;>
    simp_all [count, Nvidia.symEvents, isShutdown, isUnload, List.filter, List.takeWhile]

/-- When the Linux variant has a handle and all symbols resolved but
`nvmlInit` failed, it returns `0`, releases the library exactly once,
and never calls `nvmlShutdown`. -/
theorem Nvidia.init_fail_spec_nvml (env : Nvidia.Env) (lib : String)
    (h : Nvidia.usedLib env = some lib) (hs : Nvidia.allSymbolsResolve env lib)
    (hi : env.initStatus ≠ Nvidia.NVML_SUCCESS) :
    (Nvidia.getVRAMSize env).1 = 0 ∧
    count isUnload (Nvidia.getVRAMSize env).2 = 1 ∧
    count isShutdown (Nvidia.getVRAMSize env).2 = 0 := by
  unfold Nvidia.usedLib at h
  unfold Nvidia.allSymbolsResolve at hs
  unfold Nvidia.getVRAMSize Nvidia.withHandle
  split_ifs at h ⊢ <;>
    simp_all [count, Nvidia.symEvents, isShutdown, isUnload, List.filter]

/-- When the Linux variant has a handle but some required symbol is
null, it returns `0`, releases the library exactly once, and calls no
vendor function. -/
theorem Nvidia.syms_fail_spec_nvml (env : Nvidia.Env) (lib : String)
    (h : Nvidia.usedLib env = some lib) (hs : ¬ Nvidia.allSymbolsResolve env lib) :
    (Nvidia.getVRAMSize env).1 = 0 ∧
    count isUnload (Nvidia.getVRAMSize env).2 = 1 ∧
    count isVendorCall (Nvidia.getVRAMSize env).2 = 0 := by
  unfold Nvidia.usedLib at h
  unfold Nvidia.allSymbolsResolve at hs
  unfold Nvidia.getVRAMSize Nvidia.withHandle
  split_ifs at h ⊢ <;>
    simp_all [count, Nvidia.symEvents, isVendorCall, isUnload, List.filter]

/-- If the Linux variant called any vendor function pointer, a library
had been opened and all four required symbols had resolved against it. -/
theorem Nvidia.allResolve_of_vendorCall_nvml (env : Nvidia.Env)
    (h : 0 < count isVendorCall (Nvidia.getVRAMSize env).2) :
    ∃ lib, Nvidia.usedLib env = some lib ∧ Nvidia.allSymbolsResolve env lib := by
  unfold Nvidia.getVRAMSize Nvidia.withHandle at h
  unfold Nvidia.usedLib Nvidia.allSymbolsResolve
  split_ifs at h ⊢ <;>
    simp_all [count, Nvidia.symEvents, isVendorCall, List.filter]

/-- If the primary name `libnvidia-ml.so.1` fails to open but
`libnvidia-ml.so` opens, the Linux variant records both attempts and
then runs its body against the `libnvidia-ml.so` handle. -/
theorem Nvidia.fallback_eq_nvml (env : Nvidia.Env)
    (h1 : env.loads "libnvidia-ml.so.1" = false) (h2 : env.loads "libnvidia-ml.so" = true) :
    Nvidia.getVRAMSize env =
      ((Nvidia.withHandle env "libnvidia-ml.so").1,
       .load "libnvidia-ml.so.1" false :: .load "libnvidia-ml.so" true ::
         (Nvidia.withHandle env "libnvidia-ml.so").2) := by
  unfold Nvidia.getVRAMSize
  simp [h1, h2]

/-- If neither library name opens, the Linux variant returns `0` having
performed only the two failed load attempts. -/
theorem Nvidia.both_fail_eq_nvml (env : Nvidia.Env)
    (h1 : env.loads "libnvidia-ml.so.1" = false) (h2 : env.loads "libnvidia-ml.so" = false) :
    Nvidia.getVRAMSize env =
      (0, [.load "libnvidia-ml.so.1" false, .load "libnvidia-ml.so" false]) := by
  unfold Nvidia.getVRAMSize
  simp [h1, h2]

/-- On full success the Linux variant returns the `unsigned long long`
value of `memory.total` (bytes, no unit conversion), calls
`nvmlShutdown` once and releases the library once. -/
theorem Nvidia.success_spec_nvml (env : Nvidia.Env) (lib : String)
    (h : Nvidia.usedLib env = some lib) (hs : Nvidia.allSymbolsResolve env lib)
    (hi : env.initStatus = Nvidia.NVML_SUCCESS)
    (hg : env.getHandleStatus = Nvidia.NVML_SUCCESS)
    (hm : env.memStatus = Nvidia.NVML_SUCCESS) :
    (Nvidia.getVRAMSize env).1 = env.memTotal % 2 ^ 64 ∧
    count isShutdown (Nvidia.getVRAMSize env).2 = 1 ∧
    count isUnload (Nvidia.getVRAMSize env).2 = 1 := by
  unfold Nvidia.usedLib at h
  unfold Nvidia.allSymbolsResolve at hs
  unfold Nvidia.getVRAMSize Nvidia.withHandle
  split_ifs at h ⊢ <;>
    simp_all [count, Nvidia.symEvents, isShutdown, isUnload, List.filter]

/-- When the Linux variant reaches the memory query and
`nvmlDeviceGetMemoryInfo` fails, it returns `0` after calling
`nvmlShutdown` once and releasing the library once. -/
theorem Nvidia.mem_fail_spec_nvml (env : Nvidia.Env) (lib : String)
    (h : Nvidia.usedLib env = some lib) (hs : Nvidia.allSymbolsResolve env lib)
    (hi : env.initStatus = Nvidia.NVML_SUCCESS)
    (hg : env.getHandleStatus = Nvidia.NVML_SUCCESS)
    (hm : env.memStatus ≠ Nvidia.NVML_SUCCESS) :
    (Nvidia.getVRAMSize env).1 = 0 ∧
    count isShutdown (Nvidia.getVRAMSize env).2 = 1 ∧
    count isUnload (Nvidia.getVRAMSize env).2 = 1 := by
  unfold Nvidia.usedLib at h
  unfold Nvidia.allSymbolsResolve at hs
  unfold Nvidia.getVRAMSize Nvidia.withHandle
  split_ifs at h ⊢ <;>
    simp_all [count, Nvidia.symEvents, isShutdown, isUnload, List.filter]

/-- Every memory-info query the Linux variant performs carries no
version tag: the `nvmlMemory_t` record has no version field. -/
theorem Nvidia.memInfo_version_nvml (env : Nvidia.Env) (v : Option Nat)
    (h : NvEvent.callGetMemoryInfo v ∈ (Nvidia.getVRAMSize env).2) :
    v = none := by
  unfold Nvidia.getVRAMSize Nvidia.withHandle at h
  split_ifs at h <;> simp_all [Nvidia.symEvents]

/-! Helper lemmas about the log forwarder. -/

/-- Closed form of the splitting loop: started at position `1000 * k`,
it emits one segment per remaining 1000-byte window of the message. -/
theorem AslDarwin.splitSegs_closed (n : Nat) :
    ∀ (msg : List Char) (k : Nat), msg.length - 1000 * k ≤ n →
      AslDarwin.splitSegs msg (1000 * k) =
        (List.range ((msg.length - 1000 * k + 999) / 1000)).map
          (fun j => AslDarwin.segment msg (k + j)) := by
  induction n with
  | zero =>
      intro msg k h
      rw [AslDarwin.splitSegs]
      have hk : ¬ 1000 * k < msg.length := by omega
      have h0 : (msg.length - 1000 * k + 999) / 1000 = 0 := by omega
      simp [hk, h0]
  | succ n ih =>
      intro msg k h
      by_cases hk : 1000 * k < msg.length
      · rw [AslDarwin.splitSegs, dif_pos hk]
        have h1000 : 1000 * k + 1000 = 1000 * (k + 1) := by ring
        rw [h1000, ih msg (k + 1) (by omega)]
        have hN : (msg.length - 1000 * k + 999) / 1000
            = ((msg.length - 1000 * (k + 1) + 999) / 1000) + 1 := by omega
        rw [hN, List.range_succ_eq_map]
        simp only [List.map_cons, List.map_map]
        congr 1
        · have e2 : 1000 * (k + 1) = 1000 * k + 1000 := by ring
          simp [AslDarwin.segment, e2]
        · congr 1
          funext j
          simp only [Function.comp]
          congr 1
          omega
      · rw [AslDarwin.splitSegs]
        have h0 : (msg.length - 1000 * k + 999) / 1000 = 0 := by omega
        simp [hk, h0]

/-- A message of at least 1024 bytes is split into `⌈length/1000⌉`
segments. -/
theorem AslDarwin.log_eq_of_ge (msg : List Char) (h : 1024 ≤ msg.length) :
    AslDarwin.apple_asl_logger_log msg =
      (List.range ((msg.length + 999) / 1000)).map (AslDarwin.segment msg) := by
  unfold AslDarwin.apple_asl_logger_log
  rw [if_neg (by omega)]
  have hc := AslDarwin.splitSegs_closed msg.length msg 0 (by omega)
  simpa using hc

/-- A message shorter than 1024 bytes is logged verbatim in a single
call. -/
theorem AslDarwin.log_eq_of_lt (msg : List Char) (h : msg.length < 1024) :
    AslDarwin.apple_asl_logger_log msg = [msg] := by
  unfold AslDarwin.apple_asl_logger_log
  rw [if_pos h]

/-- Number of `asl_log` calls for a long message. -/
theorem AslDarwin.log_length_of_ge (msg : List Char) (h : 1024 ≤ msg.length) :
    (AslDarwin.apple_asl_logger_log msg).length = (msg.length + 999) / 1000 := by
  rw [AslDarwin.log_eq_of_ge msg h]
  simp

/-! The claims. -/

/-- C1: for every failure injection point of `getVRAMSize` (library-open
failure for both candidate names, any required symbol missing, vendor
init returning non-success, enumeration / get-by-index failing or
yielding zero devices, memory-info query failing — i.e. whenever the run
is not a full success), the function returns exactly `0`, in both the
Windows and the Linux variant.  "Never raises" holds by construction:
both embeddings are total functions returning a value on every
environment. -/
theorem claim_C1_failure_paths_return_zero (envW : Nvapi.Env) (envL : Nvidia.Env) :
    (¬ Nvapi.fullSuccess envW → (Nvapi.getVRAMSize envW).1 = 0) ∧
    (¬ Nvidia.fullSuccess envL → (Nvidia.getVRAMSize envL).1 = 0) :=
  ⟨Nvapi.ret_zero_of_not_fullSuccess envW, Nvidia.ret_zero_of_not_fullSuccess_nvml envL⟩

/-- Witness for C1 at environments in which neither library name opens. -/
theorem claim_C1_failure_paths_return_zero_witness :
    (Nvapi.getVRAMSize nvapiEnvNoLib).1 = 0 ∧ (Nvidia.getVRAMSize nvmlEnvNoLib).1 = 0 :=
  ⟨(claim_C1_failure_paths_return_zero nvapiEnvNoLib nvmlEnvNoLib).1
      (by simp [Nvapi.fullSuccess, Nvapi.usedLib, nvapiEnvNoLib]),
   (claim_C1_failure_paths_return_zero nvapiEnvNoLib nvmlEnvNoLib).2
      (by simp [Nvidia.fullSuccess, Nvidia.usedLib, nvmlEnvNoLib])⟩

/-- C2: resource symmetry.  In every execution of either variant,
successful loads and unloads balance; when the load succeeded there is
exactly one unload before the function returns; and when init succeeded
(the symbols having resolved), the vendor shutdown is invoked exactly
once, before the unload (it lies in the part of the trace preceding the
first unload). -/
theorem claim_C2_resource_symmetry (envW : Nvapi.Env) (envL : Nvidia.Env) :
    count isLoadOk (Nvapi.getVRAMSize envW).2 = count isUnload (Nvapi.getVRAMSize envW).2 ∧
    count isLoadOk (Nvidia.getVRAMSize envL).2 = count isUnload (Nvidia.getVRAMSize envL).2 ∧
    (∀ lib, Nvapi.usedLib envW = some lib →
      count isUnload (Nvapi.getVRAMSize envW).2 = 1) ∧
    (∀ lib, Nvidia.usedLib envL = some lib →
      count isUnload (Nvidia.getVRAMSize envL).2 = 1) ∧
    (∀ lib, Nvapi.usedLib envW = some lib → Nvapi.allSymbolsResolve envW lib →
      envW.initStatus = Nvapi.NVAPI_OK →
      count isShutdown (beforeFirstUnload (Nvapi.getVRAMSize envW).2) = 1 ∧
      count isShutdown (Nvapi.getVRAMSize envW).2 = 1) ∧
    (∀ lib, Nvidia.usedLib envL = some lib → Nvidia.allSymbolsResolve envL lib →
      envL.initStatus = Nvidia.NVML_SUCCESS →
      count isShutdown (beforeFirstUnload (Nvidia.getVRAMSize envL).2) = 1 ∧
      count isShutdown (Nvidia.getVRAMSize envL).2 = 1) :=
  ⟨Nvapi.count_loadOk_eq_count_unload envW, Nvidia.loadOk_eq_unload_nvml envL,
   Nvapi.unload_one_of_used envW, Nvidia.unload_one_of_used_nvml envL,
   fun lib h hs hi => Nvapi.shutdown_of_init_ok envW lib h hs hi,
   fun lib h hs hi => Nvidia.shutdown_of_init_ok_nvml envL lib h hs hi⟩

/-- Witness for C2 at fully successful environments. -/
theorem claim_C2_resource_symmetry_witness :
    (count isShutdown (beforeFirstUnload (Nvapi.getVRAMSize nvapiEnvOk).2) = 1 ∧
     count isShutdown (Nvapi.getVRAMSize nvapiEnvOk).2 = 1) ∧
    (count isShutdown (beforeFirstUnload (Nvidia.getVRAMSize nvmlEnvOk).2) = 1 ∧
     count isShutdown (Nvidia.getVRAMSize nvmlEnvOk).2 = 1) ∧
    count isUnload (Nvapi.getVRAMSize nvapiEnvOk).2 = 1 :=
  ⟨(claim_C2_resource_symmetry nvapiEnvOk nvmlEnvOk).2.2.2.2.1 "nvapi64.dll" rfl
      ⟨rfl, rfl, rfl, rfl⟩ rfl,
   (claim_C2_resource_symmetry nvapiEnvOk nvmlEnvOk).2.2.2.2.2 "libnvidia-ml.so.1" rfl
      ⟨rfl, rfl, rfl, rfl⟩ rfl,
   (claim_C2_resource_symmetry nvapiEnvOk nvmlEnvOk).2.2.1 "nvapi64.dll" rfl⟩

/-- C3: library-name fallback.  If the primary name fails to open but
the secondary one succeeds, either variant records both attempts and
proceeds with its body run against the secondary handle; if both names
fail to open, it returns `0` immediately with zero unload calls. -/
theorem claim_C3_library_name_fallback (envW : Nvapi.Env) (envL : Nvidia.Env) :
    (envW.loads "nvapi64.dll" = false → envW.loads "nvapi.dll" = true →
      Nvapi.getVRAMSize envW =
        ((Nvapi.withHandle envW "nvapi.dll").1,
         .load "nvapi64.dll" false :: .load "nvapi.dll" true ::
           (Nvapi.withHandle envW "nvapi.dll").2)) ∧
    (envW.loads "nvapi64.dll" = false → envW.loads "nvapi.dll" = false →
      (Nvapi.getVRAMSize envW).1 = 0 ∧
      count isUnload (Nvapi.getVRAMSize envW).2 = 0) ∧
    (envL.loads "libnvidia-ml.so.1" = false → envL.loads "libnvidia-ml.so" = true →
      Nvidia.getVRAMSize envL =
        ((Nvidia.withHandle envL "libnvidia-ml.so").1,
         .load "libnvidia-ml.so.1" false :: .load "libnvidia-ml.so" true ::
           (Nvidia.withHandle envL "libnvidia-ml.so").2)) ∧
    (envL.loads "libnvidia-ml.so.1" = false → envL.loads "libnvidia-ml.so" = false →
      (Nvidia.getVRAMSize envL).1 = 0 ∧
      count isUnload (Nvidia.getVRAMSize envL).2 = 0) := by
  refine ⟨Nvapi.fallback_eq envW, ?_, Nvidia.fallback_eq_nvml envL, ?_⟩
  · intro h1 h2
    rw [Nvapi.both_fail_eq envW h1 h2]
    exact ⟨rfl, rfl⟩
  · intro h1 h2
    rw [Nvidia.both_fail_eq_nvml envL h1 h2]
    exact ⟨rfl, rfl⟩

/-- Witness for C3: the secondary-only environments take the fallback,
the no-library environments return `0` with no unload. -/
theorem claim_C3_library_name_fallback_witness :
    (Nvapi.getVRAMSize nvapiEnvFallback =
      ((Nvapi.withHandle nvapiEnvFallback "nvapi.dll").1,
       .load "nvapi64.dll" false :: .load "nvapi.dll" true ::
         (Nvapi.withHandle nvapiEnvFallback "nvapi.dll").2)) ∧
    (Nvidia.getVRAMSize nvmlEnvFallback =
      ((Nvidia.withHandle nvmlEnvFallback "libnvidia-ml.so").1,
       .load "libnvidia-ml.so.1" false :: .load "libnvidia-ml.so" true ::
         (Nvidia.withHandle nvmlEnvFallback "libnvidia-ml.so").2)) ∧
    ((Nvapi.getVRAMSize nvapiEnvNoLib).1 = 0 ∧
     count isUnload (Nvapi.getVRAMSize nvapiEnvNoLib).2 = 0) ∧
    ((Nvidia.getVRAMSize nvmlEnvNoLib).1 = 0 ∧
     count isUnload (Nvidia.getVRAMSize nvmlEnvNoLib).2 = 0) :=
  ⟨(claim_C3_library_name_fallback nvapiEnvFallback nvmlEnvFallback).1
      (by decide) (by decide),
   (claim_C3_library_name_fallback nvapiEnvFallback nvmlEnvFallback).2.2.1
      (by decide) (by decide),
   (claim_C3_library_name_fallback nvapiEnvNoLib nvmlEnvNoLib).2.1
      (by decide) (by decide),
   (claim_C3_library_name_fallback nvapiEnvNoLib nvmlEnvNoLib).2.2.2
      (by decide) (by decide)⟩

/-- C4: if the vendor init function returns a non-success status (the
symbols having resolved), either variant returns `0`, releases the
library exactly once, and does not invoke the shutdown function. -/
theorem claim_C4_init_failure (envW : Nvapi.Env) (envL : Nvidia.Env) :
    (∀ lib, Nvapi.usedLib envW = some lib → Nvapi.allSymbolsResolve envW lib →
      envW.initStatus ≠ Nvapi.NVAPI_OK →
      (Nvapi.getVRAMSize envW).1 = 0 ∧
      count isUnload (Nvapi.getVRAMSize envW).2 = 1 ∧
      count isShutdown (Nvapi.getVRAMSize envW).2 = 0) ∧
    (∀ lib, Nvidia.usedLib envL = some lib → Nvidia.allSymbolsResolve envL lib →
      envL.initStatus ≠ Nvidia.NVML_SUCCESS →
      (Nvidia.getVRAMSize envL).1 = 0 ∧
      count isUnload (Nvidia.getVRAMSize envL).2 = 1 ∧
      count isShutdown (Nvidia.getVRAMSize envL).2 = 0) :=
  ⟨fun lib h hs hi => Nvapi.init_fail_spec envW lib h hs hi,
   fun lib h hs hi => Nvidia.init_fail_spec_nvml envL lib h hs hi⟩

/-- Witness for C4 at environments in which init fails. -/
theorem claim_C4_init_failure_witness :
    ((Nvapi.getVRAMSize nvapiEnvInitFail).1 = 0 ∧
     count isUnload (Nvapi.getVRAMSize nvapiEnvInitFail).2 = 1 ∧
     count isShutdown (Nvapi.getVRAMSize nvapiEnvInitFail).2 = 0) ∧
    ((Nvidia.getVRAMSize nvmlEnvInitFail).1 = 0 ∧
     count isUnload (Nvidia.getVRAMSize nvmlEnvInitFail).2 = 1 ∧
     count isShutdown (Nvidia.getVRAMSize nvmlEnvInitFail).2 = 0) :=
  ⟨(claim_C4_init_failure nvapiEnvInitFail nvmlEnvInitFail).1 "nvapi64.dll" rfl
      ⟨rfl, rfl, rfl, rfl⟩ (by decide),
   (claim_C4_init_failure nvapiEnvInitFail nvmlEnvInitFail).2 "libnvidia-ml.so.1" rfl
      ⟨rfl, rfl, rfl, rfl⟩ (by decide)⟩

/-- C5: symbol-resolution completeness.  If any required symbol fails
to resolve, either variant releases the library once and returns `0`
with no vendor function invoked; conversely a vendor function pointer is
called only in runs in which a library was opened and all required
entry points resolved simultaneously. -/
theorem claim_C5_symbol_resolution_completeness (envW : Nvapi.Env) (envL : Nvidia.Env) :
    (∀ lib, Nvapi.usedLib envW = some lib → ¬ Nvapi.allSymbolsResolve envW lib →
      (Nvapi.getVRAMSize envW).1 = 0 ∧
      count isUnload (Nvapi.getVRAMSize envW).2 = 1 ∧
      count isVendorCall (Nvapi.getVRAMSize envW).2 = 0) ∧
    (0 < count isVendorCall (Nvapi.getVRAMSize envW).2 →
      ∃ lib, Nvapi.usedLib envW = some lib ∧ Nvapi.allSymbolsResolve envW lib) ∧
    (∀ lib, Nvidia.usedLib envL = some lib → ¬ Nvidia.allSymbolsResolve envL lib →
      (Nvidia.getVRAMSize envL).1 = 0 ∧
      count isUnload (Nvidia.getVRAMSize envL).2 = 1 ∧
      count isVendorCall (Nvidia.getVRAMSize envL).2 = 0) ∧
    (0 < count isVendorCall (Nvidia.getVRAMSize envL).2 →
      ∃ lib, Nvidia.usedLib envL = some lib ∧ Nvidia.allSymbolsResolve envL lib) :=
  ⟨fun lib h hs => Nvapi.syms_fail_spec envW lib h hs,
   Nvapi.allResolve_of_vendorCall envW,
   fun lib h hs => Nvidia.syms_fail_spec_nvml envL lib h hs,
   Nvidia.allResolve_of_vendorCall_nvml envL⟩

/-- Witness for C5: with no symbol resolving nothing vendor is called,
and the fully successful runs did resolve everything. -/
theorem claim_C5_symbol_resolution_completeness_witness :
    ((Nvapi.getVRAMSize nvapiEnvNoSyms).1 = 0 ∧
     count isUnload (Nvapi.getVRAMSize nvapiEnvNoSyms).2 = 1 ∧
     count isVendorCall (Nvapi.getVRAMSize nvapiEnvNoSyms).2 = 0) ∧
    (∃ lib, Nvapi.usedLib nvapiEnvOk = some lib ∧ Nvapi.allSymbolsResolve nvapiEnvOk lib) ∧
    ((Nvidia.getVRAMSize nvmlEnvNoSyms).1 = 0 ∧
     count isUnload (Nvidia.getVRAMSize nvmlEnvNoSyms).2 = 1 ∧
     count isVendorCall (Nvidia.getVRAMSize nvmlEnvNoSyms).2 = 0) ∧
    (∃ lib, Nvidia.usedLib nvmlEnvOk = some lib ∧ Nvidia.allSymbolsResolve nvmlEnvOk lib) :=
  ⟨(claim_C5_symbol_resolution_completeness nvapiEnvNoSyms nvmlEnvNoSyms).1 "nvapi64.dll"
      rfl (by decide),
   (claim_C5_symbol_resolution_completeness nvapiEnvOk nvmlEnvOk).2.1 (by decide),
   (claim_C5_symbol_resolution_completeness nvapiEnvNoSyms nvmlEnvNoSyms).2.2.1
      "libnvidia-ml.so.1" rfl (by decide),
   (claim_C5_symbol_resolution_completeness nvapiEnvOk nvmlEnvOk).2.2.2 (by decide)⟩

/-- C6: on full success, `getVRAMSize` invokes shutdown once, releases
the library once, and returns the unit-converted byte count: the
Windows variant returns `dedicatedVideoMemory` (kilobytes, an `NvU32`)
multiplied by 1024, the Linux variant returns `memory.total` (already
bytes) unchanged. -/
theorem claim_C6_success_value (envW : Nvapi.Env) (envL : Nvidia.Env) :
    (∀ lib, Nvapi.usedLib envW = some lib → Nvapi.allSymbolsResolve envW lib →
      envW.initStatus = Nvapi.NVAPI_OK → envW.enumStatus = Nvapi.NVAPI_OK →
      envW.enumCount % 2 ^ 32 ≠ 0 → envW.memStatus = Nvapi.NVAPI_OK →
      envW.dedicatedVideoMemory < 2 ^ 32 →
      (Nvapi.getVRAMSize envW).1 = envW.dedicatedVideoMemory * 1024 ∧
      count isShutdown (Nvapi.getVRAMSize envW).2 = 1 ∧
      count isUnload (Nvapi.getVRAMSize envW).2 = 1) ∧
    (∀ lib, Nvidia.usedLib envL = some lib → Nvidia.allSymbolsResolve envL lib →
      envL.initStatus = Nvidia.NVML_SUCCESS → envL.getHandleStatus = Nvidia.NVML_SUCCESS →
      envL.memStatus = Nvidia.NVML_SUCCESS → envL.memTotal < 2 ^ 64 →
      (Nvidia.getVRAMSize envL).1 = envL.memTotal ∧
      count isShutdown (Nvidia.getVRAMSize envL).2 = 1 ∧
      count isUnload (Nvidia.getVRAMSize envL).2 = 1) := by
  constructor
  · intro lib h hs hi he hc hm hlt
    obtain ⟨h1, h2, h3⟩ := Nvapi.success_spec envW lib h hs hi he hc hm
    exact ⟨by rw [h1, Nat.mod_eq_of_lt hlt], h2, h3⟩
  · intro lib h hs hi hg hm hlt
    obtain ⟨h1, h2, h3⟩ := Nvidia.success_spec_nvml envL lib h hs hi hg hm
    exact ⟨by rw [h1, Nat.mod_eq_of_lt hlt], h2, h3⟩

/-- Witness for C6: a vendor API reporting 8388608 KB (Windows) or
8589934592 bytes (Linux) yields the return value 8589934592. -/
theorem claim_C6_success_value_witness :
    (Nvapi.getVRAMSize nvapiEnvOk).1 = 8589934592 ∧
    (Nvidia.getVRAMSize nvmlEnvOk).1 = 8589934592 := by
  have hW := ((claim_C6_success_value nvapiEnvOk nvmlEnvOk).1 "nvapi64.dll" rfl
      ⟨rfl, rfl, rfl, rfl⟩ rfl rfl (by decide) rfl (by decide)).1
  have hL := ((claim_C6_success_value nvapiEnvOk nvmlEnvOk).2 "libnvidia-ml.so.1" rfl
      ⟨rfl, rfl, rfl, rfl⟩ rfl rfl rfl (by decide)).1
  exact ⟨by rw [hW]; decide, by rw [hL]; decide⟩

/-- C7: every memory-info query of the Windows variant carries the
version tag `NV_DISPLAY_DRIVER_MEMORY_INFO_VER = 0x10028` set into the
record before the call, the Linux variant's memory-info query carries
no version tag, and when the memory-info query returns a non-success
status either variant invokes shutdown once, releases the library once,
and returns `0`. -/
theorem claim_C7_version_tag (envW : Nvapi.Env) (envL : Nvidia.Env) :
    (∀ v, NvEvent.callGetMemoryInfo v ∈ (Nvapi.getVRAMSize envW).2 →
      v = some Nvapi.NV_DISPLAY_DRIVER_MEMORY_INFO_VER) ∧
    (∀ v, NvEvent.callGetMemoryInfo v ∈ (Nvidia.getVRAMSize envL).2 → v = none) ∧
    (∀ lib, Nvapi.usedLib envW = some lib → Nvapi.allSymbolsResolve envW lib →
      envW.initStatus = Nvapi.NVAPI_OK → envW.enumStatus = Nvapi.NVAPI_OK →
      envW.enumCount % 2 ^ 32 ≠ 0 → envW.memStatus ≠ Nvapi.NVAPI_OK →
      (Nvapi.getVRAMSize envW).1 = 0 ∧
      count isShutdown (Nvapi.getVRAMSize envW).2 = 1 ∧
      count isUnload (Nvapi.getVRAMSize envW).2 = 1) ∧
    (∀ lib, Nvidia.usedLib envL = some lib → Nvidia.allSymbolsResolve envL lib →
      envL.initStatus = Nvidia.NVML_SUCCESS → envL.getHandleStatus = Nvidia.NVML_SUCCESS →
      envL.memStatus ≠ Nvidia.NVML_SUCCESS →
      (Nvidia.getVRAMSize envL).1 = 0 ∧
      count isShutdown (Nvidia.getVRAMSize envL).2 = 1 ∧
      count isUnload (Nvidia.getVRAMSize envL).2 = 1) :=
  ⟨Nvapi.memInfo_version envW, Nvidia.memInfo_version_nvml envL,
   fun lib h hs hi he hc hm => Nvapi.mem_fail_spec envW lib h hs hi he hc hm,
   fun lib h hs hi hg hm => Nvidia.mem_fail_spec_nvml envL lib h hs hi hg hm⟩

/-- Witness for C7: the version tag of the queries actually performed in
the fully successful runs, and the memory-query-failure outcome. -/
theorem claim_C7_version_tag_witness :
    (some Nvapi.NV_DISPLAY_DRIVER_MEMORY_INFO_VER
      = some Nvapi.NV_DISPLAY_DRIVER_MEMORY_INFO_VER) ∧
    ((Nvapi.getVRAMSize nvapiEnvMemFail).1 = 0 ∧
     count isShutdown (Nvapi.getVRAMSize nvapiEnvMemFail).2 = 1 ∧
     count isUnload (Nvapi.getVRAMSize nvapiEnvMemFail).2 = 1) ∧
    ((Nvidia.getVRAMSize nvmlEnvMemFail).1 = 0 ∧
     count isShutdown (Nvidia.getVRAMSize nvmlEnvMemFail).2 = 1 ∧
     count isUnload (Nvidia.getVRAMSize nvmlEnvMemFail).2 = 1) :=
  ⟨(claim_C7_version_tag nvapiEnvOk nvmlEnvOk).1
      (some Nvapi.NV_DISPLAY_DRIVER_MEMORY_INFO_VER) (by decide),
   (claim_C7_version_tag nvapiEnvMemFail nvmlEnvMemFail).2.2.1 "nvapi64.dll" rfl
      ⟨rfl, rfl, rfl, rfl⟩ rfl rfl (by decide) (by decide),
   (claim_C7_version_tag nvapiEnvMemFail nvmlEnvMemFail).2.2.2 "libnvidia-ml.so.1" rfl
      ⟨rfl, rfl, rfl, rfl⟩ rfl rfl (by decide)⟩

/-- C8: idempotence / no cross-call state.  The C functions keep no
state across calls (no statics; the library is loaded and unloaded
afresh within each call), so a call is a pure function of the
environment: two sequential calls in one unchanged environment return
the same value, and the combined trace of the two calls still balances
loads against unloads. -/
theorem claim_C8_idempotence (envW : Nvapi.Env) (envL : Nvidia.Env) :
    (Nvapi.callTwice envW).1.1 = (Nvapi.callTwice envW).2.1 ∧
    (Nvidia.callTwice envL).1.1 = (Nvidia.callTwice envL).2.1 ∧
    count isLoadOk ((Nvapi.callTwice envW).1.2 ++ (Nvapi.callTwice envW).2.2) =
      count isUnload ((Nvapi.callTwice envW).1.2 ++ (Nvapi.callTwice envW).2.2) ∧
    count isLoadOk ((Nvidia.callTwice envL).1.2 ++ (Nvidia.callTwice envL).2.2) =
      count isUnload ((Nvidia.callTwice envL).1.2 ++ (Nvidia.callTwice envL).2.2) := by
  refine ⟨rfl, rfl, ?_, ?_⟩
  · have h := Nvapi.count_loadOk_eq_count_unload envW
    simp only [count] at h
    simp only [Nvapi.callTwice, count, List.filter_append, List.length_append]
    omega
  · have h := Nvidia.loadOk_eq_unload_nvml envL
    simp only [count] at h
    simp only [Nvidia.callTwice, count, List.filter_append, List.length_append]
    omega

/-- C9: every log message longer than 1024 bytes is split into multiple
`asl_log` calls; call `i` is the 1000-byte window of the message at
position `1000 * i` (hence each call carries at most 1000 message
bytes), prefixed with `"[...] "` exactly when it is a continuation
(`i ≠ 0`) and suffixed with `" [...]"` exactly when it is not final
(the code's condition `1000 * i + 1000 < length`, equivalent to
`i + 1` being a valid call index). -/
theorem claim_C9_log_splitting (msg : List Char) (h : 1024 < msg.length) :
    2 ≤ (AslDarwin.apple_asl_logger_log msg).length ∧
    AslDarwin.apple_asl_logger_log msg =
      (List.range ((msg.length + 999) / 1000)).map (fun i =>
        (if i = 0 then [] else AslDarwin.contMarker) ++
          (msg.drop (1000 * i)).take 1000 ++
          (if 1000 * i + 1000 < msg.length then AslDarwin.nonFinalMarker else [])) ∧
    (∀ i, ((msg.drop (1000 * i)).take 1000).length ≤ 1000) ∧
    (∀ i, (i + 1 < (AslDarwin.apple_asl_logger_log msg).length ↔
      1000 * i + 1000 < msg.length)) := by
  have hlen := AslDarwin.log_length_of_ge msg (by omega)
  refine ⟨by rw [hlen]; omega, AslDarwin.log_eq_of_ge msg (by omega), ?_, ?_⟩
  · intro i
    simp [List.length_take]
  · intro i
    rw [hlen]
    omega

set_option maxRecDepth 40000

/-- Witness for C9 at a 1025-byte message: it is split into two calls. -/
theorem claim_C9_log_splitting_witness :
    2 ≤ (AslDarwin.apple_asl_logger_log (List.replicate 1025 'a')).length :=
  (claim_C9_log_splitting (List.replicate 1025 'a') (by simp)).1

/-- C10: boundary of the splitting path.  The single-call path is taken
exactly when the message is shorter than 1024 bytes (then the message is
logged verbatim); from 1024 bytes on, a message of length `L` produces
`⌈L / 1000⌉` calls whose `i`-th call is `segment msg i`, carrying the
message bytes of the window `[1000 * i, min (1000 * (i + 1)) L)`. -/
theorem claim_C10_log_split_boundary (msg : List Char) :
    ((AslDarwin.apple_asl_logger_log msg).length = 1 ↔ msg.length < 1024) ∧
    (msg.length < 1024 → AslDarwin.apple_asl_logger_log msg = [msg]) ∧
    (1024 ≤ msg.length →
      AslDarwin.apple_asl_logger_log msg =
        (List.range ((msg.length + 999) / 1000)).map (AslDarwin.segment msg)) := by
  by_cases h : msg.length < 1024
  · refine ⟨?_, fun _ => AslDarwin.log_eq_of_lt msg h, fun hge => absurd hge (by omega)⟩
    rw [AslDarwin.log_eq_of_lt msg h]
    simp [h]
  · have hge : 1024 ≤ msg.length := by omega
    refine ⟨?_, fun hlt => absurd hlt h, fun _ => AslDarwin.log_eq_of_ge msg hge⟩
    rw [AslDarwin.log_length_of_ge msg hge]
    omega

/-- Witness for C10 at a message of exactly 1024 bytes: it is already
split, into 1000 message bytes suffixed with `" [...]"` and then 24
message bytes prefixed with `"[...] "`. -/
theorem claim_C10_log_split_boundary_witness :
    AslDarwin.apple_asl_logger_log (List.replicate 1024 'a') =
      [List.replicate 1000 'a' ++ AslDarwin.nonFinalMarker,
       AslDarwin.contMarker ++ List.replicate 24 'a'] := by
  have h := (claim_C10_log_split_boundary (List.replicate 1024 'a')).2.2 (by simp)
  rw [h]
  decide
